import Mathlib

/-!
Verification of the MinerU-webui batch-conversion core against its
natural-language specification.

The Lean definitions below are a shallow embedding of `src/utils.py`
(`ParallelProcessor.process_items`, `FileUtils`, `ProgressTracker`) and
`src/app.py` (`MinerUWebConverter.process_file`, `_process_docx`, and the
batch-aggregation loop of `batch_process_files`).  Python machine-level
details are modelled as follows: Python `int` becomes `Int` (or `Nat` for
counts), float arithmetic on progress fractions becomes `Rat` (the only
float operations used are division, `min` and multiplication by 100, all
exact on the inputs involved), raising an exception becomes the `.error`
branch of `Except`, and filesystem side effects are recorded in an explicit
effect list.  External collaborators (the PDF analyzer, the image OCR path,
`docx.Document` parsing) are parameters of the embedding, per §6 of the
spec; everything the repository itself computes is translated directly from
the source.
-/

namespace MinerUWebUI

instance instDecEqExcept {ε α : Type} [DecidableEq ε] [DecidableEq α] :
    DecidableEq (Except ε α) := fun a b =>
  match a, b with
  | Except.ok x, Except.ok y =>
    if h : x = y then isTrue (by rw [h]) else isFalse (fun hh => h (by injection hh))
  | Except.error x, Except.error y =>
    if h : x = y then isTrue (by rw [h]) else isFalse (fun hh => h (by injection hh))
  | Except.ok _, Except.error _ => isFalse (fun hh => Except.noConfusion hh)
  | Except.error _, Except.ok _ => isFalse (fun hh => Except.noConfusion hh)

/-- ASCII lower-casing of one character, as Python `str.lower` acts on the
ASCII range (the only range file extensions use). -/
def lowerChar (c : Char) : Char :=
  if 65 ≤ c.toNat ∧ c.toNat ≤ 90 then Char.ofNat (c.toNat + 32) else c

/-- Python `str.lower` on a string (ASCII range). -/
def strLower (s : String) : String := ⟨s.data.map lowerChar⟩

/-- Python `str.strip()`: remove leading and trailing whitespace. -/
def pyStrip (s : String) : String :=
  ⟨((s.data.dropWhile Char.isWhitespace).reverse.dropWhile Char.isWhitespace).reverse⟩

/-- Python `str.split(sep)` for a one-character separator, as used in
`os.path.basename(p).split('.')` and for breaking a string into lines. -/
def splitOnChar (sep : Char) (s : String) : List String :=
  (s.data.splitOn sep).map (fun cs => ⟨cs⟩)

/-- `os.path.basename`: the part of the path after the last `/`. -/
def pyBasename (p : String) : String :=
  (splitOnChar '/' p).getLastD ""

/-- `os.path.join` for the two-argument calls the source makes. -/
def joinPath (a b : String) : String := a ++ "/" ++ b

/-- The extension component of `os.path.splitext(p)`: the suffix of the
basename starting at its last dot, where leading dots of the basename do
not begin an extension (`.bashrc` has extension `""`). -/
def pyExtension (p : String) : String :=
  let b := (pyBasename p).data
  let rest := b.drop ((b.takeWhile (fun c => c = '.')).length)
  if rest.contains '.' then ⟨'.' :: (rest.reverse.takeWhile (fun c => c ≠ '.')).reverse⟩
  else ""

/-- `os.path.basename(p).split('.')[0]`, the way both `_process_docx` and
the batch-aggregation loop derive a base name (text before the FIRST dot of
the file name). -/
def baseNameOf (p : String) : String :=
  (splitOnChar '.' (pyBasename p)).headD ""

/-! ## `utils.py`: `ParallelProcessor.process_items`

`process_items` submits one future per item, then iterates the
`future_to_item` dict in insertion (= submission) order.  For each future it
blocks on `future.result()`; on success it appends the result and invokes
the callback on the calling thread; if the job raised, the exception is
caught, logged, and the loop moves on — no result is appended and no
callback is invoked for that item.  The model returns the result list
together with the sequence of callback invocations `(item, result)`, in the
order they happen. -/

def processItems (processFunc : α → Except ε β) : List α → List β × List (α × β)
  | [] => ([], [])
  | item :: rest =>
    match processFunc item with
    | Except.ok r =>
      let tail := processItems processFunc rest
      (r :: tail.1, (item, r) :: tail.2)
    | Except.error _ =>
      processItems processFunc rest

/-- The sequence of items for which the callback fires, in invocation
order. -/
def callbackOrder (processFunc : α → Except ε β) (items : List α) : List α :=
  (processItems processFunc items).2.map Prod.fst

/-! ## `utils.py`: `ProgressTracker`

`__init__` stores `total` and sets `current = 0` with no validation.
`update(increment)` adds `increment` to `current` and then computes
`progress = min(current / total, 1.0)`; `get_progress` computes the same
snapshot without updating.  In Python the division raises
`ZeroDivisionError` when `total == 0`; the snapshot computation is
therefore modelled in `Except`.  The lock makes concurrent `update` calls
equivalent to some sequential interleaving, which is what the sequential
model captures. -/

structure ProgressTracker where
  total : Int
  current : Int
  description : String
deriving DecidableEq, Repr

structure ProgressSnapshot where
  current : Int
  total : Int
  progress : Rat
  percentage : Rat
deriving DecidableEq, Repr

/-- `ProgressTracker.__init__`: stores the arguments, performs no
validation of `total`. -/
def ProgressTracker.init (total : Int) (description : String) : ProgressTracker :=
  ⟨total, 0, description⟩

/-- The snapshot dict both `update` and `get_progress` build:
`progress = min(current / total, 1.0)`, `percentage = progress * 100`;
raises `ZeroDivisionError` when `total = 0`. -/
def ProgressTracker.makeSnapshot (t : ProgressTracker) : Except String ProgressSnapshot :=
  if t.total = 0 then Except.error "ZeroDivisionError"
  else
    let progress : Rat := min ((t.current : Rat) / (t.total : Rat)) 1
    Except.ok ⟨t.current, t.total, progress, progress * 100⟩

/-- `ProgressTracker.update`: increments `current`, then returns the
snapshot of the updated state (the increment happens before the division,
so the state is mutated even when the division raises). -/
def ProgressTracker.update (t : ProgressTracker) (increment : Int) :
    ProgressTracker × Except String ProgressSnapshot :=
  let t' : ProgressTracker := ⟨t.total, t.current + increment, t.description⟩
  (t', t'.makeSnapshot)

/-- `ProgressTracker.get_progress`. -/
def ProgressTracker.getProgress (t : ProgressTracker) : Except String ProgressSnapshot :=
  t.makeSnapshot

/-- A run of `n` consecutive `update()` calls with the default increment 1:
the final tracker state and the list of returned snapshots, in call
order. -/
def ProgressTracker.updateRun (t : ProgressTracker) : Nat → ProgressTracker × List (Except String ProgressSnapshot)
  | 0 => (t, [])
  | n + 1 =>
    let prev := t.updateRun n
    let step := prev.1.update 1
    (step.1, prev.2 ++ [step.2])

/-! ## `app.py`: task IDs and workspace paths

`process_file` generates `task_id = f"task_{int(time.time())}"` and
`batch_process_files` generates `batch_{int(time.time())}`: the ID is a
pure function of the wall-clock second, which the model passes in
explicitly as `now`. -/

def makeTaskId (now : Nat) : String := "task_" ++ toString now

def makeBatchId (now : Nat) : String := "batch_" ++ toString now

/-- Filesystem side effects the converters perform, recorded in program
order. -/
inductive FsEffect
  | ensureDir (path : String)
  | writeFile (path : String)
deriving DecidableEq, Repr

/-- The result dict each `_process_*` converter returns. -/
structure ConvResult where
  mdContent : String
  zipPath : String
  mdFilePath : String
  imageDir : String
deriving DecidableEq, Repr

/-! ## `app.py`: `_process_docx` Markdown synthesis

`docx.Document` parsing is an external collaborator (§6 of the spec); its
output is modelled as a `DocxDoc`: the ordered paragraphs (style name,
text, and one success flag per inline drawing, since
`_extract_and_save_docx_image` returns whether the blob could be saved)
followed by the tables as row/cell grids of cell texts. -/

structure DocxPara where
  styleName : String
  text : String
  drawings : List Bool
deriving DecidableEq, Repr

structure DocxDoc where
  paragraphs : List DocxPara
  tables : List (List (List String))
deriving DecidableEq, Repr

/-- Python `str.replace(pat, rep)`: replace every non-overlapping
occurrence, scanning left to right.  Implemented with a fuel argument so
that the kernel can evaluate it; each step consumes at least one character,
so fuel `l.length + 1` always suffices. -/
def pyReplaceAux (pat rep : List Char) : Nat → List Char → List Char
  | 0, l => l
  | _ + 1, [] => []
  | fuel + 1, c :: cs =>
    if pat ≠ [] ∧ pat.isPrefixOf (c :: cs) then
      rep ++ pyReplaceAux pat rep fuel ((c :: cs).drop pat.length)
    else
      c :: pyReplaceAux pat rep fuel cs

def pyReplace (s pat rep : String) : String :=
  ⟨pyReplaceAux pat.data rep.data (s.data.length + 1) s.data⟩

/-- Value of a non-empty all-digit character list. -/
def digitsVal (ds : List Char) : Nat :=
  ds.foldl (fun a c => a * 10 + (c.toNat - 48)) 0

/-- Python `int(s)` on a decimal literal: strips surrounding whitespace,
allows one leading sign, then requires a non-empty digit string; anything
else raises `ValueError` (modelled as `none`). -/
def pyInt (s : String) : Option Int :=
  let core := (pyStrip s).data
  match core with
  | '-' :: ds => if ds ≠ [] ∧ ds.all Char.isDigit then some (-(digitsVal ds : Int)) else none
  | '+' :: ds => if ds ≠ [] ∧ ds.all Char.isDigit then some (digitsVal ds : Int) else none
  | ds => if ds ≠ [] ∧ ds.all Char.isDigit then some (digitsVal ds : Int) else none

/-- `'#' * heading_level`: Python string repetition yields `""` for a
non-positive count, which `Int.toNat` mirrors. -/
def hashes (level : Int) : String := ⟨List.replicate level.toNat '#'⟩

/-- Python `str.startswith`. -/
def pyStartsWith (s pre : String) : Bool := pre.data.isPrefixOf s.data

/-- The Markdown block for one paragraph's text, when the stripped text is
non-empty: `'#' * int(style.name.replace('Heading', '')) + ' ' + text` for
a style whose name starts with `Heading`, otherwise the raw text.
`int(...)` raises `ValueError` on an unparseable level. -/
def paraTextBlock (p : DocxPara) : Except String String :=
  if pyStartsWith p.styleName "Heading" then
    match pyInt (pyReplace p.styleName "Heading" "") with
    | some level => Except.ok (hashes level ++ " " ++ p.text)
    | none => Except.error "ValueError"
  else
    Except.ok p.text

/-- The image blocks contributed by one paragraph's drawings, threading the
global `image_index`: an index is consumed (and a file written under the
task's `images/` directory) only when the blob extraction succeeds. -/
def paraImageBlocks (localImageDir : String) : List Bool → Nat → List String × List FsEffect × Nat
  | [], idx => ([], [], idx)
  | ok :: rest, idx =>
    if ok then
      let tail := paraImageBlocks localImageDir rest (idx + 1)
      (("![图片 " ++ toString idx ++ "](images/image_" ++ toString idx ++ ".png)") :: tail.1,
       FsEffect.writeFile (joinPath localImageDir ("image_" ++ toString idx ++ ".png")) :: tail.2.1,
       tail.2.2)
    else
      paraImageBlocks localImageDir rest idx

/-- The paragraph loop of `_process_docx`: per paragraph, first the text
block (when the stripped text is non-empty), then the image blocks. -/
def paraBlocks (localImageDir : String) : List DocxPara → Nat → Except String (List String × List FsEffect × Nat)
  | [], idx => Except.ok ([], [], idx)
  | p :: ps, idx => do
    let textPart ←
      if pyStrip p.text ≠ "" then (paraTextBlock p).map (fun b => [b])
      else Except.ok []
    let imgs := paraImageBlocks localImageDir p.drawings idx
    let rest ← paraBlocks localImageDir ps imgs.2.2
    Except.ok (textPart ++ imgs.1 ++ rest.1, imgs.2.1 ++ rest.2.1, rest.2.2)

/-- `' | '.join`-style joining. -/
def joinSep (sep : String) : List String → String
  | [] => ""
  | [x] => x
  | x :: xs => x ++ sep ++ joinSep sep xs

/-- One Markdown table row: `'| ' + ' | '.join(cells) + ' |'`. -/
def mdTableRow (cells : List String) : String :=
  "| " ++ joinSep " | " cells ++ " |"

/-- The Markdown block for one table: header row (cells stripped),
`---` separator sized to the header, then the remaining rows (cells
stripped), joined with `'\n'`.  `table.rows[0]` raises `IndexError` on a
table without rows. -/
def tableBlock (t : List (List String)) : Except String String :=
  match t with
  | [] => Except.error "IndexError"
  | header :: rest =>
    let headerCells := header.map pyStrip
    let lines := mdTableRow headerCells
      :: mdTableRow (headerCells.map (fun _ => "---"))
      :: rest.map (fun row => mdTableRow (row.map pyStrip))
    Except.ok (joinSep "\n" lines)

def tableBlocksList : List (List (List String)) → Except String (List String)
  | [] => Except.ok []
  | t :: ts => do
    let b ← tableBlock t
    let bs ← tableBlocksList ts
    Except.ok (b :: bs)

/-- The full Markdown content `_process_docx` synthesizes: paragraph and
image blocks in document order, then all table blocks, joined with
`'\n\n'`; plus the image files written along the way. -/
def docxMdContent (localImageDir : String) (doc : DocxDoc) : Except String (String × List FsEffect) := do
  let paras ← paraBlocks localImageDir doc.paragraphs 1
  let tabs ← tableBlocksList doc.tables
  Except.ok (joinSep "\n\n" (paras.1 ++ tabs), paras.2.1)

/-- `_process_docx`: allocates `{output_dir}/{task_id}/images`, walks the
parsed document, writes `{base}.md` and `{base}.zip` into the task
directory, and returns the result dict.  `docOf` models the external
`docx.Document` parser. -/
def processDocx (outputDir : String) (docOf : String → DocxDoc) (filePath taskId : String) :
    Except String (ConvResult × List FsEffect) := do
  let name := (splitOnChar '.' (pyBasename filePath)).headD ""
  let taskOutputDir := joinPath outputDir taskId
  let localImageDir := joinPath taskOutputDir "images"
  let md ← docxMdContent localImageDir (docOf filePath)
  let mdFilePath := joinPath taskOutputDir (name ++ ".md")
  let zipPath := joinPath taskOutputDir (name ++ ".zip")
  Except.ok (⟨md.1, zipPath, mdFilePath, localImageDir⟩,
    FsEffect.ensureDir localImageDir :: md.2 ++ [FsEffect.writeFile mdFilePath, FsEffect.writeFile zipPath])

/-- The external converters `process_file` dispatches to.  `_process_pdf`
and `_process_image` wrap the MinerU analyzer (out of scope per §6), so
they are opaque parameters; the DOCX path is in-repo and modelled by
`processDocx` over the external `docOf` parser. -/
structure Converters where
  pdf : String → String → Except String (ConvResult × List FsEffect)
  img : String → String → Except String (ConvResult × List FsEffect)
  docOf : String → DocxDoc

/-- `MinerUWebConverter.process_file`: generates the task ID from the
current second, dispatches on the lower-cased extension, and returns
`(md_content, zip_path)` on success or the tuple
`("不支持的文件类型", None)` — with no filesystem effects — for an
unsupported extension. -/
def processFile (outputDir : String) (cv : Converters) (now : Nat) (filePath : String) :
    Except String ((String × Option String) × List FsEffect) :=
  let taskId := makeTaskId now
  let fileExt := strLower (pyExtension filePath)
  if fileExt = ".pdf" then
    (cv.pdf filePath taskId).map (fun r => ((r.1.mdContent, some r.1.zipPath), r.2))
  else if fileExt = ".doc" ∨ fileExt = ".docx" then
    (processDocx outputDir cv.docOf filePath taskId).map (fun r => ((r.1.mdContent, some r.1.zipPath), r.2))
  else if fileExt = ".jpg" ∨ fileExt = ".jpeg" ∨ fileExt = ".png" ∨ fileExt = ".gif" then
    (cv.img filePath taskId).map (fun r => ((r.1.mdContent, some r.1.zipPath), r.2))
  else
    Except.ok (("不支持的文件类型", none), [])

/-! ## `app.py`: the aggregation loop of `batch_process_files`

For each result in `results`, the loop requires
`isinstance(result, tuple) and len(result) == 2 and result[1]` (`result[1]`
truthy rules out both `None` and the empty string), checks
`os.path.exists(zip_path)` (modelled by the oracle `existsFs`), extracts
the per-job zip into a scratch directory and re-adds every extracted file
to the batch zip under `os.path.join(base_name, rel_path)` with
`base_name = os.path.basename(zip_path).split('.')[0]`.  `zipContents`
models the relative paths found inside a per-job zip on disk. -/

def jobEntries (existsFs : String → Bool) (zipContents : String → List String)
    (result : String × Option String) : List String :=
  match result.2 with
  | none => []
  | some zipPath =>
    if zipPath ≠ "" ∧ existsFs zipPath then
      (zipContents zipPath).map (fun relPath => joinPath (baseNameOf zipPath) relPath)
    else []

/-- The archive-name list written into `batch_results.zip`, in write
order. -/
def batchZipEntries (results : List (String × Option String))
    (existsFs : String → Bool) (zipContents : String → List String) : List String :=
  results.flatMap (jobEntries existsFs zipContents)

/-- The top-level batch-archive directory under which one result's files
are written, when it contributes at all. -/
def jobTopDir (existsFs : String → Bool) (result : String × Option String) : Option String :=
  match result.2 with
  | none => none
  | some zipPath => if zipPath ≠ "" ∧ existsFs zipPath then some (baseNameOf zipPath) else none

/-- The list of top-level directory names the aggregation loop writes
under, one per contributing job, in submission order. -/
def batchTopDirs (results : List (String × Option String)) (existsFs : String → Bool) : List String :=
  results.filterMap (jobTopDir existsFs)

/-! ## Auxiliary definitions used to state the claims -/

/-- Insertion step of a stable sort by a completion instant. -/
def insertByTime (time : α → Nat) (x : α) : List α → List α
  | [] => [x]
  | y :: ys => if time x ≤ time y then x :: y :: ys else y :: insertByTime time x ys

/-- Stable sort by a completion instant. -/
def sortByTime (time : α → Nat) : List α → List α
  | [] => []
  | x :: xs => insertByTime time x (sortByTime time xs)

/-- Formalisation of the spec phrase "the jobs' completion order": the
items ordered by the wall-clock instant at which each item's job finishes.
This definition follows the spec's words, not the source; it exists only to
state (and refute) the ordering clause of the callback claim. -/
def completionOrder (completeAt : α → Nat) (items : List α) : List α :=
  sortByTime completeAt items

/-- A concrete converter set: the out-of-scope PDF/image converters reject
every input, and the DOCX parser yields an empty document.  Used to
instantiate the converter parameters at concrete inputs. -/
def conv0 : Converters :=
  ⟨fun _ _ => Except.error "analyzer unavailable",
   fun _ _ => Except.error "analyzer unavailable",
   fun _ => ⟨[], []⟩⟩

/-- The parsed form of the spec's DOCX scenario: one `Heading1` paragraph
with text `Intro` (no inline drawings) and one 2×2 table. -/
def introDoc : DocxDoc :=
  ⟨[⟨"Heading1", "Intro", []⟩], [[["A", "B"], ["C", "D"]]]⟩

/-! ## Helper lemmas -/

theorem processItems_fst_eq (f : α → Except ε β) (items : List α) :
    (processItems f items).1 = items.filterMap (fun i => (f i).toOption) := by
  induction items with
  | nil => rfl
  | cons a l ih =>
    cases h : f a <;> simp [processItems, h, Except.toOption, ih]

theorem processItems_snd_eq (f : α → Except ε β) (items : List α) :
    (processItems f items).2 =
      items.filterMap (fun i => ((f i).toOption).map (fun b => (i, b))) := by
  induction items with
  | nil => rfl
  | cons a l ih =>
    cases h : f a <;> simp [processItems, h, Except.toOption, ih]

/-! ## Claim C1 -/

/-- C1 is false as stated: for the one-element batch whose single job
raises, `process_items` returns an empty result list (not a captured
failure in place of the item) and the callback never fires, although
`len(items) = 1`. -/
theorem C1_counterexample :
    (processItems (fun _ : Nat => (Except.error "boom" : Except String Nat)) [0]).1 = [] ∧
    (processItems (fun _ : Nat => (Except.error "boom" : Except String Nat)) [0]).2 = [] ∧
    ([0] : List Nat).length = 1 := by
  decide

/-- C1 (amended): `process_items` returns one outcome and fires the
callback exactly once per item whose job returned without raising, in
submission order; an item whose job raised contributes neither a result
nor a callback, so both counts equal the number of non-raising items
rather than `len(items)`. -/
theorem C1_process_items_drops_raised (f : α → Except ε β) (items : List α) :
    (processItems f items).1.length =
      (items.filter (fun i => ((f i).toOption).isSome)).length ∧
    (processItems f items).2.length =
      (items.filter (fun i => ((f i).toOption).isSome)).length ∧
    (∀ i b, (i, b) ∈ (processItems f items).2 → f i = Except.ok b) := by
  refine ⟨?_, ?_, ?_⟩
  · induction items with
    | nil => rfl
    | cons a l ih => cases h : f a <;> simp [processItems, h, Except.toOption, ih, List.filter]
  · induction items with
    | nil => rfl
    | cons a l ih => cases h : f a <;> simp [processItems, h, Except.toOption, ih, List.filter]
  · intro i b hmem
    rw [processItems_snd_eq] at hmem
    rcases List.mem_filterMap.mp hmem with ⟨a, _, ha⟩
    cases h : f a with
    | ok v =>
      rw [h] at ha
      simp [Except.toOption] at ha
      rcases ha with ⟨hi, hb⟩
      rw [← hi, h, hb]
    | error e =>
      rw [h] at ha
      simp [Except.toOption] at ha

/-- Witness for C1: with jobs that raise exactly on item 0, the batch
`[0, 1, 2]` yields two results, two callbacks, and the callback pair
`(1, 1)` certifies that item 1's job returned `ok 1`. -/
theorem C1_witness :
    (processItems (fun n : Nat => if n = 0 then (Except.error "boom" : Except String Nat) else Except.ok n) [0, 1, 2]).2.length =
      (([0, 1, 2] : List Nat).filter (fun i => ((((fun n : Nat => if n = 0 then (Except.error "boom" : Except String Nat) else Except.ok n)) i).toOption).isSome)).length ∧
    (fun n : Nat => if n = 0 then (Except.error "boom" : Except String Nat) else Except.ok n) 1 = Except.ok 1 :=
  ⟨(C1_process_items_drops_raised _ [0, 1, 2]).2.1,
   (C1_process_items_drops_raised _ [0, 1, 2]).2.2 1 1 (by decide)⟩

/-! ## Claim C10 -/

/-- C10: the list `process_items` returns is the submission-ordered list of
the successful outcomes (the futures dict is iterated in insertion order
and each `future.result()` is awaited in turn), and the callback log is the
submission-ordered list of `(item, result)` pairs for the non-raising
items — callbacks run sequentially on the calling thread in that order. -/
theorem C10_process_items_submission_order (f : α → Except ε β) (items : List α) :
    processItems f items =
      (items.filterMap (fun i => (f i).toOption),
       items.filterMap (fun i => ((f i).toOption).map (fun b => (i, b)))) := by
  exact Prod.ext (processItems_fst_eq f items) (processItems_snd_eq f items)

/-! ## Claim C7 -/

/-- C7 is false as stated: first, callback order does not follow completion
order — with both jobs succeeding and item 2's job finishing (instant 5)
before item 1's (instant 10), the callbacks still fire in submission order
`[1, 2]`, not in completion order `[2, 1]`, because the loop blocks on the
futures in dict-insertion order; second, an item whose job raises gets no
callback at all rather than exactly one. -/
theorem C7_counterexample :
    callbackOrder (fun n : Nat => (Except.ok n : Except String Nat)) [1, 2] = [1, 2] ∧
    completionOrder (fun n : Nat => if n = 1 then 10 else 5) [1, 2] = [2, 1] ∧
    ([1, 2] : List Nat) ≠ [2, 1] ∧
    (processItems (fun _ : Nat => (Except.error "boom" : Except String Nat)) [7]).2 = [] := by
  decide

/-- C7 (amended): the callback fires exactly once per item whose job
returned without raising, after that job's return, and the invocation
order across items is submission order (the order the futures dict is
iterated), independent of when the jobs actually complete; items whose
job raised get no callback. -/
theorem C7_callbacks_submission_order (f : α → Except ε β) (items : List α) :
    callbackOrder f items = items.filter (fun i => ((f i).toOption).isSome) := by
  induction items with
  | nil => rfl
  | cons a l ih =>
    simp only [callbackOrder] at ih ⊢
    cases h : f a with
    | ok r => simp [processItems, h, Except.toOption, List.filter_cons, ih]
    | error e => simp [processItems, h, Except.toOption, List.filter_cons, ih]

/-! ## ProgressTracker lemmas -/

theorem updateRun_fst (t : ProgressTracker) (n : Nat) :
    (t.updateRun n).1 = ⟨t.total, t.current + n, t.description⟩ := by
  induction n with
  | zero => simp [ProgressTracker.updateRun]
  | succ n ih =>
    simp only [ProgressTracker.updateRun, ProgressTracker.update, ih]
    refine congrArg (fun c => ProgressTracker.mk t.total c t.description) ?_
    push_cast
    ring

theorem updateRun_snd (t : ProgressTracker) (n : Nat) :
    (t.updateRun n).2 = (List.range n).map
      (fun (k : Nat) => ProgressTracker.makeSnapshot ⟨t.total, t.current + (k : Int) + 1, t.description⟩) := by
  induction n with
  | zero => simp [ProgressTracker.updateRun]
  | succ n ih =>
    simp only [ProgressTracker.updateRun, ProgressTracker.update, ih, updateRun_fst,
      List.range_succ, List.map_append, List.map_cons, List.map_nil]

theorem makeSnapshot_bounds (total current : Int) (desc : String) (htotal : 0 < total)
    (hcur : 0 ≤ current) :
    ∃ sn : ProgressSnapshot, ProgressTracker.makeSnapshot ⟨total, current, desc⟩ = Except.ok sn ∧
      sn.current = current ∧ sn.total = total ∧ 0 ≤ sn.progress ∧ sn.progress ≤ 1 := by
  have hne : total ≠ 0 := ne_of_gt htotal
  refine ⟨⟨current, total, min ((current : Rat) / (total : Rat)) 1,
    min ((current : Rat) / (total : Rat)) 1 * 100⟩, ?_, rfl, rfl, ?_, min_le_right _ _⟩
  · simp [ProgressTracker.makeSnapshot, hne]
  · refine le_min (div_nonneg ?_ ?_) zero_le_one
    · exact_mod_cast hcur
    · exact_mod_cast le_of_lt htotal

/-! ## Claim C2 -/

/-- C2: for a tracker built with `total > 0` and `n` `update()` calls with
the default increment, the final `current` equals `n`; the snapshot
returned by the `(k+1)`-th update has `current = k + 1` and a `progress`
value clamped into `[0, 1]` by `min(current / total, 1.0)`; and
`get_progress` on the final state also reports a progress in `[0, 1]`. -/
theorem C2_progress_bounds (total : Int) (desc : String) (n k : Nat)
    (htotal : 0 < total) (hk : k < n) :
    ((ProgressTracker.init total desc).updateRun n).1.current = n ∧
    (∃ sn : ProgressSnapshot,
      ((ProgressTracker.init total desc).updateRun n).2[k]? = some (Except.ok sn) ∧
      sn.current = (k : Int) + 1 ∧ 0 ≤ sn.progress ∧ sn.progress ≤ 1) ∧
    (∃ g : ProgressSnapshot,
      ((ProgressTracker.init total desc).updateRun n).1.getProgress = Except.ok g ∧
      g.current = (n : Int) ∧ 0 ≤ g.progress ∧ g.progress ≤ 1) := by
  refine ⟨?_, ?_, ?_⟩
  · rw [updateRun_fst]
    simp [ProgressTracker.init]
  · rcases makeSnapshot_bounds total (0 + (k : Int) + 1) desc htotal (by positivity) with
      ⟨sn, hsn, hc, _, h0, h1⟩
    refine ⟨sn, ?_, by omega, h0, h1⟩
    rw [updateRun_snd]
    rw [List.getElem?_map, List.getElem?_range hk]
    simp only [Option.map_some, ProgressTracker.init]
    exact congrArg some hsn
  · rcases makeSnapshot_bounds total (0 + (n : Int)) desc htotal (by positivity) with
      ⟨g, hg, hc, _, h0, h1⟩
    refine ⟨g, ?_, by omega, h0, h1⟩
    rw [updateRun_fst]
    simp only [ProgressTracker.init, ProgressTracker.getProgress]
    exact hg

/-- Witness for C2: a tracker over 2 items receiving 3 default updates —
more updates than `total`, exercising the defensive clamp — reaches
`current = 3` with every snapshot's progress in `[0, 1]`. -/
theorem C2_witness :
    ((ProgressTracker.init 2 "批量处理文件").updateRun 3).1.current = (3 : Nat) ∧
    (∃ sn : ProgressSnapshot,
      ((ProgressTracker.init 2 "批量处理文件").updateRun 3).2[2]? = some (Except.ok sn) ∧
      sn.current = (2 : Int) + 1 ∧ 0 ≤ sn.progress ∧ sn.progress ≤ 1) ∧
    (∃ g : ProgressSnapshot,
      ((ProgressTracker.init 2 "批量处理文件").updateRun 3).1.getProgress = Except.ok g ∧
      g.current = ((3 : Nat) : Int) ∧ 0 ≤ g.progress ∧ g.progress ≤ 1) :=
  C2_progress_bounds 2 "批量处理文件" 3 2 (by decide) (by decide)

/-! ## Claim C6 -/

/-- C6 is false as stated: `ProgressTracker.__init__` performs no
validation, so constructing with `total == 0` succeeds (yielding the state
`{total := 0, current := 0}`), and the division by zero the claim says is
prevented does occur on the first `update` and on `get_progress`. -/
theorem C6_counterexample :
    ProgressTracker.init 0 "d" = ⟨0, 0, "d"⟩ ∧
    ((ProgressTracker.init 0 "d").update 1).2 = Except.error "ZeroDivisionError" ∧
    (ProgressTracker.init 0 "d").getProgress = Except.error "ZeroDivisionError" := by
  decide

/-- C6 (amended): the constructor stores any `total` unchecked with
`current = 0`; when `total == 0` the `ZeroDivisionError` is not prevented
at construction but raised later, by the first `update` or
`get_progress` call. -/
theorem C6_init_no_validation (total : Int) (desc : String) :
    ProgressTracker.init total desc = ⟨total, 0, desc⟩ ∧
    (total = 0 →
      (ProgressTracker.init total desc).getProgress = Except.error "ZeroDivisionError" ∧
      ((ProgressTracker.init total desc).update 1).2 = Except.error "ZeroDivisionError") := by
  refine ⟨rfl, ?_⟩
  intro h
  subst h
  exact ⟨rfl, rfl⟩

/-- Witness for C6 at `total = 0`. -/
theorem C6_witness :
    ProgressTracker.init 0 "批量处理文件" = ⟨0, 0, "批量处理文件"⟩ ∧
    (ProgressTracker.init 0 "批量处理文件").getProgress = Except.error "ZeroDivisionError" :=
  ⟨(C6_init_no_validation 0 "批量处理文件").1,
   ((C6_init_no_validation 0 "批量处理文件").2 rfl).1⟩

/-! ## process_file lemmas -/

theorem processFile_unsupported_eq (out : String) (cv : Converters) (now : Nat) (path : String)
    (h : strLower (pyExtension path) ∉
      ([".pdf", ".doc", ".docx", ".jpg", ".jpeg", ".png", ".gif"] : List String)) :
    processFile out cv now path = Except.ok (("不支持的文件类型", none), []) := by
  simp only [List.mem_cons, List.not_mem_nil, or_false, not_or] at h
  obtain ⟨h1, h2, h3, h4, h5, h6, h7⟩ := h
  unfold processFile
  rw [if_neg h1, if_neg (by tauto), if_neg (by tauto)]

theorem processFile_docx_effects (out : String) (cv : Converters) (now : Nat) (path : String)
    (hext : strLower (pyExtension path) = ".docx")
    (r : (String × Option String) × List FsEffect)
    (hr : processFile out cv now path = Except.ok r) :
    r.2.head? = some (FsEffect.ensureDir (joinPath (joinPath out (makeTaskId now)) "images")) := by
  unfold processFile at hr
  rw [hext] at hr
  rw [if_neg (by decide), if_pos (by right; rfl)] at hr
  unfold processDocx at hr
  cases hmd : docxMdContent (joinPath (joinPath out (makeTaskId now)) "images") (cv.docOf path) with
  | ok md =>
    simp only [hmd, bind, Except.bind, Except.map] at hr
    injection hr with h'
    rw [← h']
    rfl
  | error e =>
    simp only [hmd, bind, Except.bind, Except.map] at hr
    exact Except.noConfusion hr

/-! ## Claim C5 -/

/-- C5: for any input whose lower-cased extension is none of `.pdf`,
`.doc`, `.docx`, `.jpg`, `.jpeg`, `.png`, `.gif`, `process_file`
immediately returns the failure tuple `("不支持的文件类型", None)` — an
error message with no archive path — and performs no filesystem effect
whatsoever (no workspace directory, no file). -/
theorem C5_unsupported_extension (out : String) (cv : Converters) (now : Nat) (path : String)
    (h : strLower (pyExtension path) ∉
      ([".pdf", ".doc", ".docx", ".jpg", ".jpeg", ".png", ".gif"] : List String)) :
    processFile out cv now path = Except.ok (("不支持的文件类型", none), []) :=
  processFile_unsupported_eq out cv now path h

/-- Witness for C5: the scenario input `c.xyz`. -/
theorem C5_witness :
    processFile "output" conv0 100 "c.xyz" = Except.ok (("不支持的文件类型", none), []) :=
  C5_unsupported_extension "output" conv0 100 "c.xyz" (by decide)

/-! ## Claim C3 -/

/-- C3 is false as stated: two distinct DOCX jobs both dispatched during
wall-clock second 100 receive the identical task ID `task_100`, and their
workspace roots coincide completely — both converters begin by ensuring
the same directory `output/task_100/images` — so same-second workspaces
overlap rather than never overlapping. -/
theorem C3_counterexample :
    ("a.docx" : String) ≠ "b.docx" ∧
    makeTaskId 100 = "task_100" ∧
    processFile "output" conv0 100 "a.docx" =
      Except.ok (("", some "output/task_100/a.zip"),
        [FsEffect.ensureDir "output/task_100/images",
         FsEffect.writeFile "output/task_100/a.md",
         FsEffect.writeFile "output/task_100/a.zip"]) ∧
    processFile "output" conv0 100 "b.docx" =
      Except.ok (("", some "output/task_100/b.zip"),
        [FsEffect.ensureDir "output/task_100/images",
         FsEffect.writeFile "output/task_100/b.md",
         FsEffect.writeFile "output/task_100/b.zip"]) := by
  decide

/-- C3 (amended): the task ID is `task_{int(time.time())}`, a pure
function of the coarse wall-clock second, so any two jobs dispatched in
the same second receive the identical ID and the identical workspace root
`{output_dir}/task_{second}` (their first filesystem action targets the
same `images/` directory); the code applies no same-second
disambiguation, so the uniqueness claimed holds at most across distinct
seconds. -/
theorem C3_same_second_collision (out : String) (cv : Converters) (now : Nat)
    (f1 f2 : String)
    (h1 : strLower (pyExtension f1) = ".docx") (h2 : strLower (pyExtension f2) = ".docx")
    (r1 r2 : (String × Option String) × List FsEffect)
    (e1 : processFile out cv now f1 = Except.ok r1)
    (e2 : processFile out cv now f2 = Except.ok r2) :
    r1.2.head? = some (FsEffect.ensureDir (joinPath (joinPath out (makeTaskId now)) "images")) ∧
    r2.2.head? = r1.2.head? := by
  have a1 := processFile_docx_effects out cv now f1 h1 r1 e1
  have a2 := processFile_docx_effects out cv now f2 h2 r2 e2
  exact ⟨a1, a2.trans a1.symm⟩

/-- Witness for C3 (amended): the two same-second jobs of the
counterexample share their workspace root. -/
theorem C3_witness :
    (([FsEffect.ensureDir "output/task_100/images",
       FsEffect.writeFile "output/task_100/a.md",
       FsEffect.writeFile "output/task_100/a.zip"] : List FsEffect).head? =
      some (FsEffect.ensureDir (joinPath (joinPath "output" (makeTaskId 100)) "images")) ∧
     ([FsEffect.ensureDir "output/task_100/images",
       FsEffect.writeFile "output/task_100/b.md",
       FsEffect.writeFile "output/task_100/b.zip"] : List FsEffect).head? =
      ([FsEffect.ensureDir "output/task_100/images",
        FsEffect.writeFile "output/task_100/a.md",
        FsEffect.writeFile "output/task_100/a.zip"] : List FsEffect).head?) :=
  C3_same_second_collision "output" conv0 100 "a.docx" "b.docx"
    (by decide) (by decide)
    (("", some "output/task_100/a.zip"),
      [FsEffect.ensureDir "output/task_100/images",
       FsEffect.writeFile "output/task_100/a.md",
       FsEffect.writeFile "output/task_100/a.zip"])
    (("", some "output/task_100/b.zip"),
      [FsEffect.ensureDir "output/task_100/images",
       FsEffect.writeFile "output/task_100/b.md",
       FsEffect.writeFile "output/task_100/b.zip"])
    (by decide) (by decide)

/-! ## Claim C4 -/

/-- C4: the batch archive receives entries only from successful jobs.  A
failed result — the tuple whose second component is `None` — contributes
no entries wherever it sits in the result list; the unsupported input
`c.xyz` produces exactly that tuple; and in the scenario
`["a.pdf", "b.docx", "c.xyz"]` the top-level directories written are
exactly `a` and `b`, every archived entry lying under `a/` or `b/`. -/
theorem C4_batch_archive_successes (xs ys : List (String × Option String)) (msg : String)
    (ex : String → Bool) (c : String → List String)
    (out : String) (cv : Converters) (now : Nat)
    (m1 m2 : String) (e : String)
    (he : e ∈ batchZipEntries
      [(m1, some "output/task_1/a.zip"), (m2, some "output/task_2/b.zip"),
       ("不支持的文件类型", none)] (fun _ => true) c) :
    batchZipEntries (xs ++ (msg, none) :: ys) ex c = batchZipEntries (xs ++ ys) ex c ∧
    processFile out cv now "c.xyz" = Except.ok (("不支持的文件类型", none), []) ∧
    batchTopDirs [(m1, some "output/task_1/a.zip"), (m2, some "output/task_2/b.zip"),
      ("不支持的文件类型", none)] (fun _ => true) = ["a", "b"] ∧
    ((∃ rel ∈ c "output/task_1/a.zip", e = joinPath "a" rel) ∨
     (∃ rel ∈ c "output/task_2/b.zip", e = joinPath "b" rel)) := by
  have ha : jobEntries (fun _ => true) c (m1, some "output/task_1/a.zip") =
      (c "output/task_1/a.zip").map (fun rel => joinPath "a" rel) := rfl
  have hb : jobEntries (fun _ => true) c (m2, some "output/task_2/b.zip") =
      (c "output/task_2/b.zip").map (fun rel => joinPath "b" rel) := rfl
  have hn : jobEntries (fun _ => true) c (("不支持的文件类型" : String), (none : Option String)) = [] := rfl
  refine ⟨?_, processFile_unsupported_eq out cv now "c.xyz" (by decide), rfl, ?_⟩
  · have hmsg : jobEntries ex c (msg, none) = [] := rfl
    simp [batchZipEntries, hmsg]
  · simp only [batchZipEntries, List.flatMap_cons, List.flatMap_nil, List.append_nil,
      ha, hb, hn] at he
    rcases List.mem_append.mp he with hleft | hright
    · rcases List.mem_map.mp hleft with ⟨rel, hrel, hrel2⟩
      exact Or.inl ⟨rel, hrel, hrel2.symm⟩
    · rcases List.mem_map.mp hright with ⟨rel, hrel, hrel2⟩
      exact Or.inr ⟨rel, hrel, hrel2.symm⟩

/-- Witness for C4: the scenario with one-file per-job archives. -/
theorem C4_witness :
    batchZipEntries ([] ++ ("m", none) :: []) (fun _ => false) (fun _ => ["doc.md"]) =
      batchZipEntries ([] ++ []) (fun _ => false) (fun _ => ["doc.md"]) ∧
    processFile "output" conv0 100 "c.xyz" = Except.ok (("不支持的文件类型", none), []) ∧
    batchTopDirs [("mdA", some "output/task_1/a.zip"), ("mdB", some "output/task_2/b.zip"),
      ("不支持的文件类型", none)] (fun _ => true) = ["a", "b"] ∧
    ((∃ rel ∈ (fun _ : String => ["doc.md"]) "output/task_1/a.zip", "a/doc.md" = joinPath "a" rel) ∨
     (∃ rel ∈ (fun _ : String => ["doc.md"]) "output/task_2/b.zip", "a/doc.md" = joinPath "b" rel)) :=
  C4_batch_archive_successes [] [] "m" (fun _ => false) (fun _ => ["doc.md"])
    "output" conv0 100 "mdA" "mdB" "a/doc.md" (by decide)

/-! ## Claim C8 -/

/-- C8 is false as stated: two successful jobs whose distinct per-job
archives are both named `report.zip` (different task directories) are
written into the batch archive under the single top-level directory
`report` with no disambiguation — the two archive entries even share the
exact arcname `report/report.md`, a silent overwrite. -/
theorem C8_counterexample :
    batchZipEntries [("m1", some "output/task_1/report.zip"),
        ("m2", some "output/task_2/report.zip")] (fun _ => true) (fun _ => ["report.md"]) =
      ["report/report.md", "report/report.md"] ∧
    batchTopDirs [("m1", some "output/task_1/report.zip"),
        ("m2", some "output/task_2/report.zip")] (fun _ => true) = ["report", "report"] ∧
    ("output/task_1/report.zip" : String) ≠ "output/task_2/report.zip" := by
  decide

/-- C8 (amended): the aggregation loop applies no disambiguation policy:
each contributing job is keyed by `os.path.basename(zip_path).split('.')[0]`
alone, so any two successful jobs whose per-job archives share a file name
are written under the same top-level batch-archive directory (later
entries silently overwriting equal relative paths). -/
theorem C8_no_disambiguation (m1 m2 p1 p2 : String) (ex : String → Bool)
    (c : String → List String)
    (hb : pyBasename p1 = pyBasename p2)
    (hex1 : ex p1 = true) (hex2 : ex p2 = true) (hne1 : p1 ≠ "") (hne2 : p2 ≠ "") :
    jobTopDir ex (m1, some p1) = some (baseNameOf p1) ∧
    jobTopDir ex (m2, some p2) = some (baseNameOf p1) ∧
    jobEntries ex c (m1, some p1) = (c p1).map (fun rel => joinPath (baseNameOf p1) rel) ∧
    jobEntries ex c (m2, some p2) = (c p2).map (fun rel => joinPath (baseNameOf p1) rel) := by
  have hbn : baseNameOf p2 = baseNameOf p1 := by
    unfold baseNameOf
    rw [hb]
  refine ⟨?_, ?_, ?_, ?_⟩ <;> simp [jobTopDir, jobEntries, hex1, hex2, hne1, hne2, hbn]

/-- Witness for C8 (amended): the two same-named per-job archives of the
counterexample collapse onto the top-level directory `report`. -/
theorem C8_witness :
    jobTopDir (fun _ => true) ("m1", some "output/task_1/report.zip") =
      some (baseNameOf "output/task_1/report.zip") ∧
    jobTopDir (fun _ => true) ("m2", some "output/task_2/report.zip") =
      some (baseNameOf "output/task_1/report.zip") ∧
    jobEntries (fun _ => true) (fun _ => ["report.md"]) ("m1", some "output/task_1/report.zip") =
      ((fun _ : String => ["report.md"]) "output/task_1/report.zip").map
        (fun rel => joinPath (baseNameOf "output/task_1/report.zip") rel) ∧
    jobEntries (fun _ => true) (fun _ => ["report.md"]) ("m2", some "output/task_2/report.zip") =
      ((fun _ : String => ["report.md"]) "output/task_2/report.zip").map
        (fun rel => joinPath (baseNameOf "output/task_1/report.zip") rel) :=
  C8_no_disambiguation "m1" "m2" "output/task_1/report.zip" "output/task_2/report.zip"
    (fun _ => true) (fun _ => ["report.md"]) (by decide) rfl rfl (by decide) (by decide)

/-! ## Claim C9 -/

/-- C9 is false as stated: the DOCX scenario (one `Heading1` paragraph
`Intro`, one 2×2 table) yields `# Intro`, a blank separator, and a
THREE-line table block — header row, `---` separator row, one data row —
for five lines in total, not the claimed four-line table block (which
would make six lines).  The exact bytes produced for cells A, B, C, D are
shown. -/
theorem C9_counterexample :
    docxMdContent "output/task_100/images" introDoc =
      Except.ok ("# Intro\n\n| A | B |\n| --- | --- |\n| C | D |", []) ∧
    (splitOnChar '\n' "| A | B |\n| --- | --- |\n| C | D |").length = 3 ∧
    (splitOnChar '\n' "# Intro\n\n| A | B |\n| --- | --- |\n| C | D |").length = 5 := by
  decide

/-- C9 (amended): converting the scenario DOCX produces Markdown that is
exactly `# Intro`, a blank line, then a 3-line table block (header row,
`---` separator row, one data row); through `_process_docx` the job writes
`intro.md` and `intro.zip` into its task directory and returns precisely
that Markdown. -/
theorem C9_docx_scenario :
    processDocx "output" (fun _ => introDoc) "intro.docx" "task_100" =
      Except.ok (⟨"# Intro\n\n| A | B |\n| --- | --- |\n| C | D |",
        "output/task_100/intro.zip", "output/task_100/intro.md", "output/task_100/images"⟩,
        [FsEffect.ensureDir "output/task_100/images",
         FsEffect.writeFile "output/task_100/intro.md",
         FsEffect.writeFile "output/task_100/intro.zip"]) ∧
    (splitOnChar '\n' "| A | B |\n| --- | --- |\n| C | D |").length = 3 := by
  decide

end MinerUWebUI
